import Mathlib

/-!
Verification development for the decode-and-cache engine of a media-library
mirror: a record decoder for a tag-indexed nested wire format
(gpmc/db_update_parser.py) and a SQLite-backed cache store (gpmc/db.py).

The wire values (decoded protobuf-like structures) are modelled by the
inductive type Val: strings, integers, byte strings, string-keyed maps
(kept as ordered association lists, as Python dicts preserve insertion
order) and lists.  Fallible Python operations (KeyError, AttributeError,
TypeError, caught or not) are modelled with Except String.
-/

inductive Val : Type where
  | str : String → Val
  | int : Int → Val
  | bytes : List Nat → Val
  | dict : List (String × Val) → Val
  | list : List Val → Val

mutual

def Val.beq : Val → Val → Bool
  | .str a, .str b => a == b
  | .int a, .int b => a == b
  | .bytes a, .bytes b => a == b
  | .dict a, .dict b => Val.beqEntries a b
  | .list a, .list b => Val.beqList a b
  | _, _ => false

def Val.beqEntries : List (String × Val) → List (String × Val) → Bool
  | [], [] => true
  | (k1, v1) :: xs, (k2, v2) :: ys => k1 == k2 && Val.beq v1 v2 && Val.beqEntries xs ys
  | _, _ => false

def Val.beqList : List Val → List Val → Bool
  | [], [] => true
  | x :: xs, y :: ys => Val.beq x y && Val.beqList xs ys
  | _, _ => false

end

theorem Val.beq_iff_all :
    (∀ a b : Val, Val.beq a b = true ↔ a = b) ∧
      (∀ a b : List Val, Val.beqList a b = true ↔ a = b) ∧
        (∀ a b : List (String × Val), Val.beqEntries a b = true ↔ a = b) :=
  Val.beq.mutual_induct
    (motive_1 := fun a b => Val.beq a b = true ↔ a = b)
    (motive_2 := fun a b => Val.beqList a b = true ↔ a = b)
    (motive_3 := fun a b => Val.beqEntries a b = true ↔ a = b)
    (fun a b => by simp [Val.beq])
    (fun a b => by simp [Val.beq])
    (fun a b => by simp [Val.beq])
    (fun a b ih => by simpa [Val.beq] using ih)
    (fun a b ih => by simpa [Val.beq] using ih)
    (fun t x h1 h2 h3 h4 h5 => by
      cases t <;> cases x <;>
        first
          | exact absurd (h1 _ _ rfl rfl) id
          | exact absurd (h2 _ _ rfl rfl) id
          | exact absurd (h3 _ _ rfl rfl) id
          | exact absurd (h4 _ _ rfl rfl) id
          | exact absurd (h5 _ _ rfl rfl) id
          | simp [Val.beq])
    (by simp [Val.beqEntries])
    (fun k1 v1 xs k2 v2 ys ih1 ih2 => by
      simp only [Val.beqEntries, Bool.and_eq_true, beq_iff_eq, ih1, ih2, List.cons.injEq,
        Prod.mk.injEq, and_assoc])
    (fun t x h1 h2 => by
      match t, x with
      | [], [] => exact absurd (h1 rfl rfl) id
      | [], (k, v) :: ys => simp [Val.beqEntries]
      | (k, v) :: xs, [] => simp [Val.beqEntries]
      | (k1, v1) :: xs, (k2, v2) :: ys => exact absurd (h2 k1 v1 xs k2 v2 ys rfl rfl) id)
    (by simp [Val.beqList])
    (fun v xs y ys ih1 ih2 => by simp [Val.beqList, ih1, ih2])
    (fun t x h1 h2 => by
      match t, x with
      | [], [] => exact absurd (h1 rfl rfl) id
      | [], y :: ys => simp [Val.beqList]
      | v :: xs, [] => simp [Val.beqList]
      | v :: xs, y :: ys => exact absurd (h2 v xs y ys rfl rfl) id)

instance Val.instDecEq : DecidableEq Val := fun a b => decidable_of_iff _ (Val.beq_iff_all.1 a b)

/-- First-match association-list lookup, the semantics of a Python dict
subscript on our ordered-entry representation (real dicts have no duplicate
keys, so the first match is the only one). -/
def lookup : List (String × Val) → String → Option Val
  | [], _ => none
  | (k1, v) :: rest, k => if k1 = k then some v else lookup rest k

/-- Replace the value of the first entry with the given key, appending when
the key is absent.  Used only to state theorems that compare two envelopes
differing in a single field. -/
def setKey : List (String × Val) → String → Val → List (String × Val)
  | [], k, v => [(k, v)]
  | (k1, v1) :: rest, k, v =>
    if k1 = k then (k, v) :: rest else (k1, v1) :: setKey rest k v

theorem lookup_setKey_same (l : List (String × Val)) (k : String) (v : Val) :
    lookup (setKey l k v) k = some v := by
  induction l with
  | nil => simp [setKey, lookup]
  | cons hd tl ih =>
    obtain ⟨k1, v1⟩ := hd
    by_cases h : k1 = k
    · simp [setKey, lookup, h]
    · simp [setKey, lookup, h, ih]

theorem lookup_setKey_ne (l : List (String × Val)) (k k2 : String) (v : Val)
    (hne : k2 ≠ k) : lookup (setKey l k v) k2 = lookup l k2 := by
  induction l with
  | nil => simp [setKey, lookup, if_neg (Ne.symm hne)]
  | cons hd tl ih =>
    obtain ⟨k1, v1⟩ := hd
    by_cases h : k1 = k
    · subst h
      simp only [setKey, if_pos rfl, lookup, if_neg (Ne.symm hne)]
    · simp only [setKey, if_neg h, lookup]
      by_cases h2 : k1 = k2 <;> simp [h2, ih]

namespace Val

/-- Python subscript d[k]: KeyError when the key is absent, TypeError when the
receiver is not a dict (string/list subscripts with a string key and integer
subscripts also raise). -/
def idx : Val → String → Except String Val
  | .dict es, k =>
    match lookup es k with
    | some v => .ok v
    | none => .error "KeyError"
  | _, _ => .error "TypeError"

/-- Python d.get(k, dflt): AttributeError when the receiver is not a dict. -/
def pyGetD : Val → String → Val → Except String Val
  | .dict es, k, dflt => .ok ((lookup es k).getD dflt)
  | _, _, _ => .error "AttributeError"

/-- Python d.get(k) (default None, modelled as Option): AttributeError when
the receiver is not a dict. -/
def pyGet : Val → String → Except String (Option Val)
  | .dict es, k => .ok (lookup es k)
  | _, _ => .error "AttributeError"

/-- Python truthiness of a wire value. -/
def truthy : Val → Bool
  | .str s => !(s == "")
  | .int n => !(n == 0)
  | .bytes b => !b.isEmpty
  | .dict es => !es.isEmpty
  | .list xs => !xs.isEmpty

/-- Python iteration over a value: a dict yields its keys (as strings), a
list its elements, a string its characters, a bytes object its integers;
an integer is not iterable. -/
def iterElems : Val → Except String (List Val)
  | .dict es => .ok (es.map (fun kv => Val.str kv.1))
  | .list xs => .ok xs
  | .str s => .ok (s.toList.map (fun c => Val.str (String.mk [c])))
  | .bytes b => .ok (b.map (fun n => Val.int n))
  | .int _ => .error "TypeError"

/-- Python `k in v` for a string k: key containment for dicts, membership for
lists, substring test for strings; TypeError otherwise. -/
def hasMember : Val → String → Except String Bool
  | .dict es, k => .ok (lookup es k).isSome
  | .list xs, k => .ok (xs.contains (Val.str k))
  | .str s, k => .ok (decide (List.IsInfix k.toList s.toList))
  | _, _ => .error "TypeError"

end Val

/-- The first-match scan `next((v[key] for key in v if key.startswith(tag)), dflt)`
used by the decoder for dedup keys and captions: iterate the receiver, test
each element with startswith (AttributeError unless it is a string), and
subscript the receiver with the first hit. -/
def scanTagGo (v : Val) (tag : String) : List Val → Except String (Option Val)
  | [] => .ok none
  | .str k :: rest =>
    if tag.toList.isPrefixOf k.toList then
      match v.idx k with
      | .ok w => .ok (some w)
      | .error e => .error e
    else scanTagGo v tag rest
  | _ :: _ => .error "AttributeError"

def scanTag (v : Val) (tag : String) : Except String (Option Val) := do
  let elems ← v.iterElems
  scanTagGo v tag elems

instance {ε α : Type} [DecidableEq ε] [DecidableEq α] : DecidableEq (Except ε α) :=
  fun a b =>
    match a, b with
    | .ok x, .ok y =>
      if h : x = y then isTrue (by rw [h]) else isFalse (by simp [h])
    | .error x, .error y =>
      if h : x = y then isTrue (by rw [h]) else isFalse (by simp [h])
    | .ok _, .error _ => isFalse (fun h => Except.noConfusion h)
    | .error _, .ok _ => isFalse (fun h => Except.noConfusion h)

example : scanTag (Val.dict [("2", Val.int 5), ("1x", Val.str "d")]) "1"
    = .ok (some (Val.str "d")) := by decide
example : scanTag (Val.dict [("2", Val.int 5)]) "1" = .ok none := by decide

/-- Standard base64 of a byte string (the stdlib b64encode semantics:
6-bit groups into the base64 alphabet, with padding). -/
def base64Chars : List Char :=
  "ABCDEFGHIJKLMNOPQRSTUVWXYZabcdefghijklmnopqrstuvwxyz0123456789+/".toList

def b64char (n : Nat) : Char := base64Chars.getD n 'A'

def b64encodeGroups : List Nat → List Char
  | [] => []
  | [a] =>
    let a := a % 256
    [b64char (a / 4), b64char (a % 4 * 16), '=', '=']
  | [a, b] =>
    let a := a % 256
    let b := b % 256
    [b64char (a / 4), b64char (a % 4 * 16 + b / 16), b64char (b % 16 * 4), '=']
  | a :: b :: c :: rest =>
    let a2 := a % 256
    let b2 := b % 256
    let c2 := c % 256
    b64char (a2 / 4) :: b64char (a2 % 4 * 16 + b2 / 16) ::
      b64char (b2 % 16 * 4 + c2 / 64) :: b64char (c2 % 64) :: b64encodeGroups rest

def b64encode (bs : List Nat) : String := String.mk (b64encodeGroups bs)

example : b64encode [1, 2, 3] = "AQID" := by decide
example : b64encode [77] = "TQ==" := by decide

/-- Modelled from the spec: gpmc/utils.py is not in src/.  The spec only says
the dedup-key fallback encodes a raw byte field "through a URL-safe base64
transform", so this models the usual URL-safe character substitution on an
already base64-encoded string: plus becomes minus and slash becomes
underscore. -/
def urlsafe_base64 (s : String) : String :=
  String.mk (s.toList.map (fun c => if c = '+' then '-' else if c = '/' then '_' else c))

/-- Modelled from the spec: the scaled-numeric codec lives in gpmc/utils.py,
which is not in src/, and the spec does not give the scale factors.  The
codec result is therefore represented symbolically as an injectively tagged
value; no claim depends on the numeric value, only on determinism and
injectivity of the encoding. -/
def fixed32_to_float (v : Val) : Val := Val.list [Val.str "fixed32_to_float", v]

/-- Modelled from the spec: see fixed32_to_float. -/
def int32_to_float (v : Val) : Val := Val.list [Val.str "int32_to_float", v]

/-- Modelled from the spec: see fixed32_to_float. -/
def int64_to_float (v : Val) : Val := Val.list [Val.str "int64_to_float", v]

/-- The Python idiom `x and f(x)` on an optional value: None stays None, a
falsy value is kept as-is, a truthy value is mapped through f. -/
def pyAnd (o : Option Val) (f : Val → Val) : Option Val :=
  match o with
  | none => none
  | some v => if v.truthy then some (f v) else some v

/-- One normalized media record, mirroring the MediaItem dataclass column
for column with the remote_media table of db.py.  Fields that the decoder
copies straight out of the wire value keep type Val (the Python code does
not coerce them); fields the decoder computes (dedup_key, origin, the
boolean flags) get their computed types; fields that are only set in
optional branches are Option with default none, mirroring the dataclass
defaults (models.py is not in src/; the defaults follow the spec and the
nullable table columns). -/
structure MediaItem where
  media_key : Val
  file_name : Val
  dedup_key : String
  is_canonical : Bool
  type : Val
  caption : Option Val
  collection_id : Val
  size_bytes : Val
  quota_charged_bytes : Val
  origin : String
  content_version : Val
  utc_timestamp : Val
  server_creation_timestamp : Val
  timezone_offset : Val
  width : Option Val := none
  height : Option Val := none
  remote_url : Option Val := none
  upload_status : Val
  trash_timestamp : Val
  is_archived : Bool
  is_favorite : Bool
  is_locked : Bool
  is_original_quality : Bool
  latitude : Option Val := none
  longitude : Option Val := none
  location_name : Option Val := none
  location_id : Option Val := none
  is_edited : Option Bool := none
  make : Option Val := none
  model : Option Val := none
  aperture : Option Val := none
  shutter_speed : Option Val := none
  iso : Option Val := none
  focal_length : Option Val := none
  duration : Option Val := none
  capture_frame_rate : Option Val := none
  encoded_frame_rate : Option Val := none
  is_micro_video : Bool := false
  micro_video_width : Option Val := none
  micro_video_height : Option Val := none
deriving DecidableEq

/-- The dedup-key resolution of _parse_media_item: take the value of the
first key of d["2"]["21"] starting with "1"; when no key matches the
default is the empty string (a str, so the fallback is skipped); when the
matched value is not a string, fall back to URL-safe base64 of the raw
byte field d["2"]["13"]["1"], any failure there becoming the RuntimeError
that fails the record. -/
def dedup_key_of (d : Val) : Except String String := do
  let d2 ← d.idx "2"
  let t21 ← d2.idx "21"
  let m ← scanTag t21 "1"
  match m with
  | some (.str s) => pure s
  | none => pure ""
  | some _ =>
    match d2.idx "13" with
    | .ok v13 =>
      match v13.idx "1" with
      | .ok (.bytes b) => pure (urlsafe_base64 (b64encode b))
      | _ => .error "RuntimeError"
    | .error _ => .error "RuntimeError"

/-- The subscript chain d["2"]["30"]["1"] feeding the origin_map lookup of
_parse_media_item. -/
def origin_code (d : Val) : Except String Val := do
  let d2 ← d.idx "2"
  let d30 ← d2.idx "30"
  d30.idx "1"

/-- The origin_map lookup origin_map[d["2"]["30"]["1"]] of _parse_media_item:
codes 1, 3, 4 map to self, partner, shared; any other value raises the
KeyError that fails the record. -/
def parse_origin (d : Val) : Except String String := do
  let v ← origin_code d
  match v with
  | .int 1 => pure "self"
  | .int 3 => pure "partner"
  | .int 4 => pure "shared"
  | _ => .error "KeyError"

/-- The lazy `any(prop.get("1") == 27 for prop in ...)` scan deciding
is_canonical: stops at the first property entry tagged 27; a non-dict
entry reached before a hit raises AttributeError. -/
def anyNonCanonical : List Val → Except String Bool
  | [] => .ok false
  | .dict es :: rest =>
    if lookup es "1" = some (Val.int 27) then .ok true else anyNonCanonical rest
  | _ :: _ => .error "AttributeError"

/-- Data read by the optional geo block (d["17"]["1"]). -/
structure GeoData where
  la : Val
  lo : Val
deriving DecidableEq

/-- Data read by the optional location block (d["17"]["5"]). -/
structure LocData where
  name : Val
  locId : Val
deriving DecidableEq

/-- Data read by the optional EXIF block (d["5"]["2"]["1"]["9"]["5"]). -/
structure ExifData where
  make : Option Val
  model : Option Val
  ap : Option Val
  sh : Option Val
  iso : Option Val
  fo : Option Val
deriving DecidableEq

/-- Data read by the optional photo block (d["5"]["2"]). -/
structure PhotoData where
  edited : Bool
  ru : Val
  w : Val
  h : Val
  exif : Option ExifData
deriving DecidableEq

/-- Data read by the optional video block (d["5"]["3"]). -/
structure VideoData where
  ru : Val
  whd : Option (Option Val × Option Val × Option Val)
  c4 : Option Val
  c5 : Option Val
deriving DecidableEq

/-- Data read by the optional micro-video block (d["5"]["5"]["2"]["4"]). -/
structure MicroData where
  du : Val
  w : Val
  h : Val
deriving DecidableEq

/-- The geo branch `if d["17"].get("1"):` reading latitude/longitude inputs
in source order. -/
def geoBlock (d17 : Val) : Except String (Option GeoData) := do
  let g1 ← d17.pyGet "1"
  match g1 with
  | some g =>
    if g.truthy then do
      let la ← g.idx "1"
      let lo ← g.idx "2"
      pure (some { la := la, lo := lo })
    else pure none
  | none => pure none

/-- The location branch `if d["17"].get("5"):`. -/
def locBlock (d17 : Val) : Except String (Option LocData) := do
  let g5 ← d17.pyGet "5"
  match g5 with
  | some g =>
    if g.truthy then do
      let g2 ← g.idx "2"
      let ln ← g2.idx "1"
      let li ← g.idx "3"
      pure (some { name := ln, locId := li })
    else pure none
  | none => pure none

/-- The photo branch `if d["5"].get("2"):`. -/
def photoBlock (d5 : Val) : Except String (Option PhotoData) := do
  let p2 ← d5.pyGet "2"
  match p2 with
  | some pv =>
    if pv.truthy then do
      let edited ← pv.hasMember "4"
      let p1 ← pv.idx "1"
      let ru ← p1.idx "1"
      let n9 ← p1.idx "9"
      let w ← n9.idx "1"
      let h ← n9.idx "2"
      let e5 ← n9.pyGet "5"
      match e5 with
      | some ev =>
        if ev.truthy then do
          let mk ← ev.pyGet "1"
          let mo ← ev.pyGet "2"
          let ap ← ev.pyGet "4"
          let sh ← ev.pyGet "5"
          let isoV ← ev.pyGet "6"
          let fo ← ev.pyGet "7"
          pure (some { edited := edited, ru := ru, w := w, h := h,
                       exif := some { make := mk, model := mo, ap := ap, sh := sh,
                                      iso := isoV, fo := fo } })
        else pure (some { edited := edited, ru := ru, w := w, h := h, exif := none })
      | none => pure (some { edited := edited, ru := ru, w := w, h := h, exif := none })
    else pure none
  | none => pure none

/-- The video branch `if d["5"].get("3"):`. -/
def videoBlock (d5 : Val) : Except String (Option VideoData) := do
  let v3 ← d5.pyGet "3"
  match v3 with
  | some vv =>
    if vv.truthy then do
      let v2 ← vv.idx "2"
      let ru ← v2.idx "1"
      let g4 ← vv.pyGet "4"
      let whd ← (match g4 with
        | some gv =>
          if gv.truthy then do
            let du ← gv.pyGet "1"
            let w ← gv.pyGet "4"
            let h ← gv.pyGet "5"
            pure (some (du, w, h))
          else pure none
        | none => pure none)
      let g6 ← vv.pyGetD "6" (Val.dict [])
      let c4 ← g6.pyGet "4"
      let c5 ← g6.pyGet "5"
      pure (some { ru := ru, whd := whd, c4 := c4, c5 := c5 })
    else pure none
  | none => pure none

/-- The micro-video branch: `if` on d["5"].get("5").get("2").get("4") with
empty-dict defaults on the two intermediate gets. -/
def microBlock (d5 : Val) : Except String (Option MicroData) := do
  let m5 ← d5.pyGetD "5" (Val.dict [])
  let m2 ← m5.pyGetD "2" (Val.dict [])
  let m4 ← m2.pyGet "4"
  match m4 with
  | some mv =>
    if mv.truthy then do
      let du ← mv.idx "1"
      let w ← mv.idx "4"
      let h ← mv.idx "5"
      pure (some { du := du, w := w, h := h })
    else pure none
  | none => pure none

/-- Field writes of the geo branch. -/
def applyGeo (o : Option GeoData) (item : MediaItem) : MediaItem :=
  match o with
  | some g => { item with latitude := some (fixed32_to_float g.la),
                          longitude := some (fixed32_to_float g.lo) }
  | none => item

/-- Field writes of the location branch. -/
def applyLoc (o : Option LocData) (item : MediaItem) : MediaItem :=
  match o with
  | some g => { item with location_name := some g.name, location_id := some g.locId }
  | none => item

/-- Field writes of the photo branch (including the nested EXIF writes). -/
def applyPhoto (o : Option PhotoData) (item : MediaItem) : MediaItem :=
  match o with
  | some p =>
    let base := { item with is_edited := some p.edited, remote_url := some p.ru,
                            width := some p.w, height := some p.h }
    match p.exif with
    | some e =>
      { base with make := e.make, model := e.model,
                  aperture := pyAnd e.ap int32_to_float,
                  shutter_speed := pyAnd e.sh int32_to_float,
                  iso := e.iso,
                  focal_length := pyAnd e.fo int32_to_float }
    | none => base
  | none => item

/-- Field writes of the video branch. -/
def applyVideo (o : Option VideoData) (item : MediaItem) : MediaItem :=
  match o with
  | some v =>
    let base := { item with remote_url := some v.ru }
    let base2 := match v.whd with
      | some (du, w, h) => { base with duration := du, width := w, height := h }
      | none => base
    { base2 with capture_frame_rate := pyAnd v.c4 int64_to_float,
                 encoded_frame_rate := pyAnd v.c5 int64_to_float }
  | none => item

/-- Field writes of the micro-video branch. -/
def applyMicro (o : Option MicroData) (item : MediaItem) : MediaItem :=
  match o with
  | some m => { item with is_micro_video := true, duration := some m.du,
                          micro_video_width := some m.w, micro_video_height := some m.h }
  | none => item

/-- _parse_media_item of db_update_parser.py: decode a single media record
from its wire value, in the evaluation order of the Python source: the
dedup key first, then the MediaItem constructor arguments, then the
optional geo, location, photo, video and micro-video blocks.  Each optional
block performs its fallible reads in source order and its field writes are
applied in branch order; no block reads previously written fields, so
collecting the writes at the end is observationally the Python behavior. -/
def parse_media_item (d : Val) : Except String MediaItem := do
  let dedup_key ← dedup_key_of d
  let media_key ← d.idx "1"
  let d2 ← d.idx "2"
  let capRaw ← scanTag d2 "3"
  let caption := match capRaw with
    | some v => if v.truthy then some v else none
    | none => none
  let file_name ← d2.idx "4"
  let d25 ← d2.idx "5"
  let props ← d25.iterElems
  let anyNC ← anyNonCanonical props
  let d5 ← d.idx "5"
  let ty ← d5.idx "1"
  let d21 ← d2.idx "1"
  let collection_id ← d21.idx "1"
  let size_bytes ← d2.idx "10"
  let timezone_offset ← d2.pyGetD "8" (Val.int 0)
  let utc_timestamp ← d2.idx "7"
  let server_creation_timestamp ← d2.idx "9"
  let upload_status ← d2.idx "11"
  let d35 ← d2.idx "35"
  let quota_charged_bytes ← d35.idx "2"
  let origin ← parse_origin d
  let content_version ← d2.idx "26"
  let d16 ← d2.idx "16"
  let trash_timestamp ← d16.pyGetD "3" (Val.int 0)
  let d29 ← d2.idx "29"
  let arch ← d29.idx "1"
  let d31 ← d2.idx "31"
  let fav ← d31.idx "1"
  let d39 ← d2.idx "39"
  let lock ← d39.idx "1"
  let origq ← d35.idx "3"
  let d17 ← d.idx "17"
  let geo ← geoBlock d17
  let loc ← locBlock d17
  let photo ← photoBlock d5
  let video ← videoBlock d5
  let micro ← microBlock d5
  pure (applyMicro micro (applyVideo video (applyPhoto photo (applyLoc loc (applyGeo geo
    { media_key := media_key
      file_name := file_name
      dedup_key := dedup_key
      is_canonical := !anyNC
      type := ty
      caption := caption
      collection_id := collection_id
      size_bytes := size_bytes
      quota_charged_bytes := quota_charged_bytes
      origin := origin
      content_version := content_version
      utc_timestamp := utc_timestamp
      server_creation_timestamp := server_creation_timestamp
      timezone_offset := timezone_offset
      upload_status := upload_status
      trash_timestamp := trash_timestamp
      is_archived := arch = Val.int 1
      is_favorite := fav = Val.int 1
      is_locked := lock = Val.int 1
      is_original_quality := origq = Val.int 2 })))))

/-- One normalized collection (album) record, mirroring the CollectionItem
dataclass column for column with the collections table of db.py.  Fields the
decoder copies from the wire keep type Val; is_custom_ordered is the one
computed boolean. -/
structure CollectionItem where
  collection_media_key : Val
  collection_album_id : Val
  title : Val
  total_items : Val
  type : Val
  sort_order : Val
  is_custom_ordered : Bool
  cover_item_media_key : Option Val
  start : Option Val
  «end» : Option Val
  last_activity_time_ms : Option Val
deriving DecidableEq

/-- _parse_collection_item of db_update_parser.py: decode a single collection
record, with the defaulted get-chains of the Python source (each chained
.get requires a dict receiver, raising AttributeError otherwise). -/
def parse_collection_item (d : Val) : Except String CollectionItem := do
  let collection_media_key ← d.idx "1"
  let g4 ← d.pyGetD "4" (Val.dict [])
  let g42 ← g4.pyGetD "2" (Val.dict [])
  let collection_album_id ← g42.pyGetD "3" (Val.str "")
  let g2 ← d.pyGetD "2" (Val.dict [])
  let g217 ← g2.pyGetD "17" (Val.dict [])
  let cover_item_media_key ← g217.pyGet "1"
  let g210 ← g2.pyGetD "10" (Val.dict [])
  let g2106 ← g210.pyGetD "6" (Val.dict [])
  let start ← g2106.pyGet "1"
  let g2107 ← g210.pyGetD "7" (Val.dict [])
  let endv ← g2107.pyGet "1"
  let last_activity_time_ms ← g210.pyGet "10"
  let title ← g2.pyGetD "5" (Val.str "Untitled")
  let total_items ← g2.pyGetD "7" (Val.int 0)
  let ty ← g2.pyGetD "8" (Val.int 0)
  let g19 ← d.pyGetD "19" (Val.dict [])
  let sort_order ← g19.pyGetD "1" (Val.int 0)
  let customOrd ← g19.pyGetD "2" (Val.int 0)
  pure
    { collection_media_key := collection_media_key
      collection_album_id := collection_album_id
      title := title
      total_items := total_items
      type := ty
      sort_order := sort_order
      is_custom_ordered := customOrd = Val.int 1
      cover_item_media_key := cover_item_media_key
      start := start
      «end» := endv
      last_activity_time_ms := last_activity_time_ms }

/-- _parse_deletion_item of db_update_parser.py: total, because every internal
failure is caught and becomes the (0, None) sentinel.  Type 1 reads
d["1"]["2"]["1"], type 2 reads d["1"]["3"]["1"], type 4 reads
d["1"]["5"]["2"], type 6 reads d["1"]["7"]["1"]; a structure check failing,
a non-dict where the checked containers should be, or an unknown type all
yield (0, None). -/
def parse_deletion_item (d : Val) : Int × Option Val :=
  match d.idx "1" with
  | .error _ => (0, none)
  | .ok d1 =>
    match d1.idx "1" with
    | .error _ => (0, none)
    | .ok t =>
      if t = Val.int 1 then
        match d1 with
        | .dict es =>
          match lookup es "2" with
          | some (.dict es2) =>
            match lookup es2 "1" with
            | some v => (1, some v)
            | none => (0, none)
          | _ => (0, none)
        | _ => (0, none)
      else if t = Val.int 2 then
        match d1 with
        | .dict es =>
          match lookup es "3" with
          | some (.dict es2) =>
            match lookup es2 "1" with
            | some v => (2, some v)
            | none => (0, none)
          | _ => (0, none)
        | _ => (0, none)
      else if t = Val.int 4 then
        match d1 with
        | .dict es =>
          match lookup es "5" with
          | some (.dict es2) =>
            match lookup es2 "2" with
            | some v => (4, some v)
            | none => (0, none)
          | _ => (0, none)
        | _ => (0, none)
      else if t = Val.int 6 then
        match d1 with
        | .dict es =>
          match lookup es "7" with
          | some (.dict es2) =>
            match lookup es2 "1" with
            | some v => (6, some v)
            | none => (0, none)
          | _ => (0, none)
        | _ => (0, none)
      else (0, none)

/-- _get_items_list of db_update_parser.py: data["1"].get(key, []) with a bare
dict wrapped into a one-element list; any other non-list value is then
iterated by the caller's for-loop, which the model folds in here (a string
yields its characters, bytes its integers — each then failing per-item — and
an integer raises an uncaught TypeError). -/
def itemsList (inner : List (String × Val)) (k : String) : Except String (List Val) :=
  match (lookup inner k).getD (Val.list []) with
  | .dict es => .ok [Val.dict es]
  | v => v.iterElems

/-- The deletion routing loop of parse_db_update: falsy keys are skipped,
type 1 goes to the media deletion list, types 2, 4 and 6 to the collection
deletion list, everything else is dropped. -/
def routeDeletions : List Val → List Val × List Val
  | [] => ([], [])
  | d :: rest =>
    let td := parse_deletion_item d
    let ms := routeDeletions rest
    match td.2 with
    | some k =>
      if k.truthy then
        if td.1 = 1 then (k :: ms.1, ms.2)
        else if td.1 = 2 ∨ td.1 = 4 ∨ td.1 = 6 then (ms.1, k :: ms.2)
        else ms
      else ms
    | none => ms

/-- The result record of parse_db_update, in the order of the Python return
statement: state token, next page token, decoded media upserts, decoded
collection upserts, media deletion keys, collection deletion keys. -/
structure ParseResult where
  state_token : Val
  next_page_token : Val
  remote_media : List MediaItem
  collections : List CollectionItem
  media_keys_to_delete : List Val
  collection_keys_to_delete : List Val
deriving DecidableEq

/-- parse_db_update of db_update_parser.py: read the two cursor tokens with
empty-string defaults, decode each media and collection item with per-item
failures dropped (the catch-and-continue loops become filterMap over
Except.toOption), and route deletion entries.  The only uncaught failures
are a malformed top level (data["1"] missing or not a dict) and a repeated
field that is a bare integer. -/
def parse_db_update (data : Val) : Except String ParseResult := do
  let inner ← (match data.idx "1" with
    | .ok (.dict es) => Except.ok es
    | .ok _ => Except.error "AttributeError"
    | .error e => Except.error e)
  let next_page_token := (lookup inner "1").getD (Val.str "")
  let state_token := (lookup inner "6").getD (Val.str "")
  let mediaRaw ← itemsList inner "2"
  let remote_media := mediaRaw.filterMap (fun d => (parse_media_item d).toOption)
  let colRaw ← itemsList inner "3"
  let collections := colRaw.filterMap (fun d => (parse_collection_item d).toOption)
  let delRaw ← itemsList inner "9"
  let routed := routeDeletions delRaw
  pure
    { state_token := state_token
      next_page_token := next_page_token
      remote_media := remote_media
      collections := collections
      media_keys_to_delete := routed.1
      collection_keys_to_delete := routed.2 }

/-- A stored row of the collections table: the is_custom_ordered boolean is
stored as a 0/1 integer (sqlite adapts Python bools that way); every other
column stores the Python value unchanged for well-typed records. -/
structure CollectionRow where
  collection_media_key : Val
  collection_album_id : Val
  title : Val
  total_items : Val
  type : Val
  sort_order : Val
  is_custom_ordered : Int
  cover_item_media_key : Option Val
  start : Option Val
  «end» : Option Val
  last_activity_time_ms : Option Val
deriving DecidableEq

def boolToInt (b : Bool) : Int := if b then 1 else 0

/-- Storage encoding of a CollectionItem (the INSERT of update_collections):
bool becomes 0/1, all other columns store the field as-is. -/
def toCollectionRow (x : CollectionItem) : CollectionRow :=
  { collection_media_key := x.collection_media_key
    collection_album_id := x.collection_album_id
    title := x.title
    total_items := x.total_items
    type := x.type
    sort_order := x.sort_order
    is_custom_ordered := boolToInt x.is_custom_ordered
    cover_item_media_key := x.cover_item_media_key
    start := x.start
    «end» := x.«end»
    last_activity_time_ms := x.last_activity_time_ms }

/-- The row-to-CollectionItem conversion shared by get_collections,
get_collection_by_id and get_collection_by_title: copy every column and
rebuild is_custom_ordered with bool() (any nonzero integer is true). -/
def collectionRowToItem (r : CollectionRow) : CollectionItem :=
  { collection_media_key := r.collection_media_key
    collection_album_id := r.collection_album_id
    title := r.title
    total_items := r.total_items
    type := r.type
    sort_order := r.sort_order
    is_custom_ordered := r.is_custom_ordered ≠ 0
    cover_item_media_key := r.cover_item_media_key
    start := r.start
    «end» := r.«end»
    last_activity_time_ms := r.last_activity_time_ms }

/-- A stored row of the remote_media table: boolean dataclass fields are
stored as 0/1 integers, everything else unchanged for well-typed records. -/
structure MediaRow where
  media_key : Val
  file_name : Val
  dedup_key : String
  is_canonical : Int
  type : Val
  caption : Option Val
  collection_id : Val
  size_bytes : Val
  quota_charged_bytes : Val
  origin : String
  content_version : Val
  utc_timestamp : Val
  server_creation_timestamp : Val
  timezone_offset : Val
  width : Option Val
  height : Option Val
  remote_url : Option Val
  upload_status : Val
  trash_timestamp : Val
  is_archived : Int
  is_favorite : Int
  is_locked : Int
  is_original_quality : Int
  latitude : Option Val
  longitude : Option Val
  location_name : Option Val
  location_id : Option Val
  is_edited : Option Int
  make : Option Val
  model : Option Val
  aperture : Option Val
  shutter_speed : Option Val
  iso : Option Val
  focal_length : Option Val
  duration : Option Val
  capture_frame_rate : Option Val
  encoded_frame_rate : Option Val
  is_micro_video : Int
  micro_video_width : Option Val
  micro_video_height : Option Val
deriving DecidableEq

/-- Storage encoding of a MediaItem (the INSERT of update). -/
def toMediaRow (m : MediaItem) : MediaRow :=
  { media_key := m.media_key
    file_name := m.file_name
    dedup_key := m.dedup_key
    is_canonical := boolToInt m.is_canonical
    type := m.type
    caption := m.caption
    collection_id := m.collection_id
    size_bytes := m.size_bytes
    quota_charged_bytes := m.quota_charged_bytes
    origin := m.origin
    content_version := m.content_version
    utc_timestamp := m.utc_timestamp
    server_creation_timestamp := m.server_creation_timestamp
    timezone_offset := m.timezone_offset
    width := m.width
    height := m.height
    remote_url := m.remote_url
    upload_status := m.upload_status
    trash_timestamp := m.trash_timestamp
    is_archived := boolToInt m.is_archived
    is_favorite := boolToInt m.is_favorite
    is_locked := boolToInt m.is_locked
    is_original_quality := boolToInt m.is_original_quality
    latitude := m.latitude
    longitude := m.longitude
    location_name := m.location_name
    location_id := m.location_id
    is_edited := m.is_edited.map boolToInt
    make := m.make
    model := m.model
    aperture := m.aperture
    shutter_speed := m.shutter_speed
    iso := m.iso
    focal_length := m.focal_length
    duration := m.duration
    capture_frame_rate := m.capture_frame_rate
    encoded_frame_rate := m.encoded_frame_rate
    is_micro_video := boolToInt m.is_micro_video
    micro_video_width := m.micro_video_width
    micro_video_height := m.micro_video_height }

/-- One INSERT ... ON CONFLICT(pk) DO UPDATE SET of the executemany loop:
when a row with the same primary key exists every non-key column is
overwritten (with the key equal, that is full row replacement), otherwise
the row is appended. -/
def upsertRow {ρ : Type} (keyOf : ρ → Val) (tbl : List ρ) (r : ρ) : List ρ :=
  if tbl.any (fun q => decide (keyOf q = keyOf r)) then
    tbl.map (fun q => if keyOf q = keyOf r then r else q)
  else tbl ++ [r]

/-- The executemany over a batch: rows are applied in order inside one
transaction. -/
def upsertBatch {ρ : Type} (keyOf : ρ → Val) (tbl : List ρ) (rs : List ρ) : List ρ :=
  rs.foldl (upsertRow keyOf) tbl

namespace Storage

/-- Storage.update of db.py: batch upsert of media items keyed by media_key
(the empty batch returns early, which foldl matches). -/
def update (tbl : List MediaRow) (items : List MediaItem) : List MediaRow :=
  upsertBatch (fun r => r.media_key) tbl (items.map toMediaRow)

/-- Storage.update_collections of db.py: batch upsert of collection items
keyed by collection_media_key. -/
def update_collections (tbl : List CollectionRow) (items : List CollectionItem) :
    List CollectionRow :=
  upsertBatch (fun r => r.collection_media_key) tbl (items.map toCollectionRow)

/-- Storage.delete of db.py: DELETE FROM remote_media WHERE media_key IN keys
(early return on the empty key list). -/
def delete (tbl : List MediaRow) (media_keys : List String) : List MediaRow :=
  if media_keys.isEmpty then tbl
  else tbl.filter (fun r => !(media_keys.any (fun k => decide (r.media_key = Val.str k))))

/-- Storage.delete_collections of db.py: DELETE FROM collections WHERE
collection_media_key IN keys OR collection_album_id IN keys (early return
on the empty key list). -/
def delete_collections (tbl : List CollectionRow) (collection_keys : List String) :
    List CollectionRow :=
  if collection_keys.isEmpty then tbl
  else
    tbl.filter (fun r =>
      !(collection_keys.any (fun k => decide (r.collection_media_key = Val.str k)) ||
        collection_keys.any (fun k => decide (r.collection_album_id = Val.str k))))

end Storage

/-- The ORDER BY last_activity_time_ms DESC sort key, following the sqlite
storage-class ordering: NULL sorts below every numeric value, numerics below
text, text below blobs (so under DESC the NULLs come last); dicts and lists
are not storable in a column and get arbitrary constant ranks. -/
def activityKey (v : Option Val) : ℕ ×ₗ (ℤ ×ₗ String) :=
  match v with
  | none => toLex (0, toLex (0, ""))
  | some (.int n) => toLex (1, toLex (n, ""))
  | some (.str s) => toLex (2, toLex (0, s))
  | some (.bytes b) => toLex (3, toLex (0, String.mk (b.map (fun n => Char.ofNat (n % 256)))))
  | some (.dict _) => toLex (4, toLex (0, ""))
  | some (.list _) => toLex (5, toLex (0, ""))

/-- Rows in descending last-activity order: a row precedes another when its
activity key is at least as large. -/
def ActDesc (a b : CollectionRow) : Prop :=
  activityKey b.last_activity_time_ms ≤ activityKey a.last_activity_time_ms

instance : DecidableRel ActDesc := fun a b =>
  inferInstanceAs
    (Decidable (activityKey b.last_activity_time_ms ≤ activityKey a.last_activity_time_ms))

instance : IsTotal CollectionRow ActDesc :=
  ⟨fun a b => le_total (activityKey b.last_activity_time_ms) (activityKey a.last_activity_time_ms)⟩

instance : IsTrans CollectionRow ActDesc :=
  ⟨fun _ _ _ h1 h2 => le_trans h2 h1⟩

namespace Storage

/-- Storage.get_collections of db.py: SELECT ordered by
last_activity_time_ms DESC, with a LIMIT clause only when the Python limit
argument is truthy (None and 0 both mean no LIMIT; sqlite treats a negative
LIMIT as no limit), and is_custom_ordered rebuilt with bool(). -/
def get_collections (tbl : List CollectionRow) (limit : Option Int) : List CollectionItem :=
  let sorted := List.insertionSort ActDesc tbl
  let rows := match limit with
    | none => sorted
    | some n => if n = 0 then sorted else if n < 0 then sorted else sorted.take n.toNat
  rows.map collectionRowToItem

/-- Storage.get_collection_by_id of db.py: point SELECT on the primary key,
first matching row, is_custom_ordered rebuilt with bool(). -/
def get_collection_by_id (tbl : List CollectionRow) (k : String) : Option CollectionItem :=
  (tbl.find? (fun r => decide (r.collection_media_key = Val.str k))).map collectionRowToItem

/-- Storage.get_collection_by_title of db.py: SELECT WHERE title = t ORDER BY
last_activity_time_ms DESC LIMIT 1. -/
def get_collection_by_title (tbl : List CollectionRow) (t : String) : Option CollectionItem :=
  (List.insertionSort ActDesc
      (tbl.filter (fun r => decide (r.title = Val.str t)))).head?.map collectionRowToItem

end Storage

theorem upsertRow_cons_ne {ρ : Type} (keyOf : ρ → Val) (q : ρ) (tl : List ρ) (r : ρ)
    (h : ¬(keyOf q = keyOf r)) :
    upsertRow keyOf (q :: tl) r = q :: upsertRow keyOf tl r := by
  have hd : decide (keyOf q = keyOf r) = false := decide_eq_false h
  by_cases ha : tl.any (fun p => decide (keyOf p = keyOf r)) = true
  · simp [upsertRow, List.any_cons, hd, ha, if_neg h]
  · have ha2 : tl.any (fun p => decide (keyOf p = keyOf r)) = false := by
      simpa using ha
    simp [upsertRow, List.any_cons, hd, ha2]

theorem find?_upsertRow {ρ : Type} (keyOf : ρ → Val) (tbl : List ρ) (r : ρ) :
    (upsertRow keyOf tbl r).find? (fun q => decide (keyOf q = keyOf r)) = some r := by
  induction tbl with
  | nil => simp [upsertRow, List.find?]
  | cons q tl ih =>
    by_cases hq : keyOf q = keyOf r
    · by_cases ha : (q :: tl).any (fun p => decide (keyOf p = keyOf r))
      · simp only [upsertRow, ha, if_pos, List.map_cons, if_pos hq]
        simp
      · exact absurd (by simp [hq]) ha
    · rw [upsertRow_cons_ne keyOf q tl r hq]
      simp only [List.find?_cons]
      rw [decide_eq_false hq]
      exact ih

/-- How many stored rows carry the given key. -/
def countKey {ρ : Type} (keyOf : ρ → Val) (tbl : List ρ) (k : Val) : Nat :=
  (tbl.filter (fun q => decide (keyOf q = k))).length

theorem countKey_eq_zero_map_id {ρ : Type} (keyOf : ρ → Val) (tl : List ρ) (r : ρ)
    (h : countKey keyOf tl (keyOf r) = 0) :
    tl.map (fun q => if keyOf q = keyOf r then r else q) = tl := by
  simp only [countKey, List.length_eq_zero, List.filter_eq_nil_iff,
    decide_eq_true_eq] at h
  have hmap := List.map_congr_left (l := tl)
    (f := fun q => if keyOf q = keyOf r then r else q) (g := id)
    (fun q hq => by simp [if_neg (h q hq)])
  simpa using hmap

theorem countKey_upsertRow {ρ : Type} (keyOf : ρ → Val) (tbl : List ρ) (r : ρ)
    (h : countKey keyOf tbl (keyOf r) ≤ 1) :
    countKey keyOf (upsertRow keyOf tbl r) (keyOf r) = 1 := by
  induction tbl with
  | nil => simp [upsertRow, countKey]
  | cons q tl ih =>
    by_cases hq : keyOf q = keyOf r
    · have hzero : countKey keyOf tl (keyOf r) = 0 := by
        have : countKey keyOf (q :: tl) (keyOf r) = countKey keyOf tl (keyOf r) + 1 := by
          simp [countKey, List.filter_cons, hq]
        omega
      have ha : (q :: tl).any (fun p => decide (keyOf p = keyOf r)) := by simp [hq]
      simp only [upsertRow, ha, if_pos, List.map_cons, if_pos hq]
      rw [countKey_eq_zero_map_id keyOf tl r hzero]
      have hstep : countKey keyOf (r :: tl) (keyOf r) = countKey keyOf tl (keyOf r) + 1 := by
        simp [countKey, List.filter_cons]
      omega
    · rw [upsertRow_cons_ne keyOf q tl r hq]
      have hle : countKey keyOf tl (keyOf r) ≤ 1 := by
        have : countKey keyOf (q :: tl) (keyOf r) = countKey keyOf tl (keyOf r) := by
          simp [countKey, List.filter_cons, hq]
        omega
      have := ih hle
      simp only [countKey, List.filter_cons, decide_eq_true_eq, if_neg hq] at this ⊢
      exact this

def isStrV : Val → Bool
  | .str _ => true
  | _ => false

def isIntV : Val → Bool
  | .int _ => true
  | _ => false

def optIsStr : Option Val → Bool
  | none => true
  | some v => isStrV v

def optIsInt : Option Val → Bool
  | none => true
  | some v => isIntV v

/-- A CollectionRecord is well formed when each column holds a value of its
declared sqlite type (TEXT columns strings, INTEGER columns integers,
nullable columns possibly absent); for such records the sqlite type-affinity
adaptation on INSERT is the identity, which is what the storage model
assumes. -/
def CollectionItem.wellFormed (x : CollectionItem) : Bool :=
  isStrV x.collection_media_key && isStrV x.collection_album_id && isStrV x.title &&
    isIntV x.total_items && isIntV x.type && isIntV x.sort_order &&
    optIsStr x.cover_item_media_key && optIsInt x.start && optIsInt x.«end» &&
    optIsInt x.last_activity_time_ms

/-- Well-formedness for media records; the REAL-typed columns (geo, EXIF and
frame-rate values, which hold codec outputs) are unconstrained because IEEE
doubles round-trip exactly through a sqlite REAL column. -/
def MediaItem.wellFormed (m : MediaItem) : Bool :=
  isStrV m.media_key && isStrV m.file_name && isIntV m.type &&
    optIsStr m.caption && isStrV m.collection_id && isIntV m.size_bytes &&
    isIntV m.quota_charged_bytes && isIntV m.content_version &&
    isIntV m.utc_timestamp && isIntV m.server_creation_timestamp &&
    isIntV m.timezone_offset && optIsInt m.width && optIsInt m.height &&
    optIsStr m.remote_url && isIntV m.upload_status && isIntV m.trash_timestamp &&
    optIsStr m.location_name && optIsStr m.location_id && optIsInt m.iso &&
    optIsInt m.duration && optIsInt m.micro_video_width && optIsInt m.micro_video_height

theorem boolToInt_ne_zero (b : Bool) : boolToInt b ≠ 0 ↔ b = true := by
  cases b <;> simp [boolToInt]

theorem find?_upsertRow_key {ρ : Type} (keyOf : ρ → Val) (tbl : List ρ) (r : ρ) (k : Val)
    (hk : keyOf r = k) :
    (upsertRow keyOf tbl r).find? (fun q => decide (keyOf q = k)) = some r := by
  subst hk
  exact find?_upsertRow keyOf tbl r

theorem countKey_upsertRow_key {ρ : Type} (keyOf : ρ → Val) (tbl : List ρ) (r : ρ) (k : Val)
    (hk : keyOf r = k) (h : countKey keyOf tbl k ≤ 1) :
    countKey keyOf (upsertRow keyOf tbl r) k = 1 := by
  subst hk
  exact countKey_upsertRow keyOf tbl r h

theorem collectionRow_roundtrip (x : CollectionItem) :
    collectionRowToItem (toCollectionRow x) = x := by
  cases x with
  | mk cmk aid t ti ty so ico cov st en la =>
    simp only [toCollectionRow, collectionRowToItem, boolToInt]
    cases ico <;> simp

/-- C1: for every well-formed CollectionRecord and MediaRecord, upserting the
one-element batch and reading back by primary key returns the record
unchanged in every field; for collections this is update_collections
followed by get_collection_by_id, for media (which has no read-back query
in the store) it is the stored row for media_key together with the
recoverability of every boolean field from its 0/1 stored integer. -/
theorem C1_upsert_roundtrip
    (ctbl : List CollectionRow) (x : CollectionItem) (s : String)
    (mtbl : List MediaRow) (m : MediaItem)
    (_hwf : x.wellFormed = true) (hkey : x.collection_media_key = Val.str s)
    (_hmwf : m.wellFormed = true) :
    Storage.get_collection_by_id (Storage.update_collections ctbl [x]) s = some x ∧
      (Storage.update mtbl [m]).find?
          (fun r => decide (r.media_key = m.media_key)) = some (toMediaRow m) ∧
      ((toCollectionRow x).is_custom_ordered ≠ 0 ↔ x.is_custom_ordered = true) ∧
      ((toMediaRow m).is_canonical ≠ 0 ↔ m.is_canonical = true) ∧
      ((toMediaRow m).is_archived ≠ 0 ↔ m.is_archived = true) ∧
      ((toMediaRow m).is_favorite ≠ 0 ↔ m.is_favorite = true) ∧
      ((toMediaRow m).is_locked ≠ 0 ↔ m.is_locked = true) ∧
      ((toMediaRow m).is_original_quality ≠ 0 ↔ m.is_original_quality = true) ∧
      ((toMediaRow m).is_micro_video ≠ 0 ↔ m.is_micro_video = true) := by
  refine ⟨?_, ?_, ?_, ?_, ?_, ?_, ?_, ?_, ?_⟩
  · unfold Storage.get_collection_by_id Storage.update_collections upsertBatch
    simp only [List.map_cons, List.map_nil, List.foldl_cons, List.foldl_nil]
    rw [find?_upsertRow_key (fun r : CollectionRow => r.collection_media_key) ctbl
      (toCollectionRow x) (Val.str s) (by simp [toCollectionRow, hkey])]
    simp [collectionRow_roundtrip]
  · unfold Storage.update upsertBatch
    simp only [List.map_cons, List.map_nil, List.foldl_cons, List.foldl_nil]
    exact find?_upsertRow_key (fun r : MediaRow => r.media_key) mtbl (toMediaRow m)
      m.media_key (by simp [toMediaRow])
  · exact boolToInt_ne_zero x.is_custom_ordered
  · exact boolToInt_ne_zero m.is_canonical
  · exact boolToInt_ne_zero m.is_archived
  · exact boolToInt_ne_zero m.is_favorite
  · exact boolToInt_ne_zero m.is_locked
  · exact boolToInt_ne_zero m.is_original_quality
  · exact boolToInt_ne_zero m.is_micro_video

def cWit : CollectionItem :=
  { collection_media_key := Val.str "m1"
    collection_album_id := Val.str "a1"
    title := Val.str "MyAlbum"
    total_items := Val.int 5
    type := Val.int 0
    sort_order := Val.int 0
    is_custom_ordered := true
    cover_item_media_key := none
    start := none
    «end» := none
    last_activity_time_ms := some (Val.int 1000000000) }

def mWit : MediaItem :=
  { media_key := Val.str "mk1"
    file_name := Val.str "f.jpg"
    dedup_key := "dd"
    is_canonical := true
    type := Val.int 1
    caption := none
    collection_id := Val.str "c1"
    size_bytes := Val.int 9
    quota_charged_bytes := Val.int 1
    origin := "self"
    content_version := Val.int 1
    utc_timestamp := Val.int 2
    server_creation_timestamp := Val.int 3
    timezone_offset := Val.int 0
    upload_status := Val.int 1
    trash_timestamp := Val.int 0
    is_archived := false
    is_favorite := true
    is_locked := false
    is_original_quality := true }

/-- C1 witness: the round trip evaluated on a concrete well-formed collection
record. -/
theorem C1_upsert_roundtrip_witness :
    Storage.get_collection_by_id (Storage.update_collections [] [cWit]) "m1" = some cWit :=
  (C1_upsert_roundtrip [] cWit "m1" [] mWit (by decide) (by decide) (by decide)).1

/-- C2: upserting record A and then record B with the same primary key leaves
exactly one row for that key, holding exactly B's fields (full replacement,
never a merge), for both tables; idempotence is the special case A = B. -/
theorem C2_last_write_wins
    (ctbl : List CollectionRow) (A B : CollectionItem)
    (mtbl : List MediaRow) (MA MB : MediaItem)
    (hkeyC : A.collection_media_key = B.collection_media_key)
    (hkeyM : MA.media_key = MB.media_key)
    (hcntC : countKey (fun r : CollectionRow => r.collection_media_key) ctbl
      B.collection_media_key ≤ 1)
    (hcntM : countKey (fun r : MediaRow => r.media_key) mtbl MB.media_key ≤ 1) :
    (countKey (fun r : CollectionRow => r.collection_media_key)
        (Storage.update_collections (Storage.update_collections ctbl [A]) [B])
        B.collection_media_key = 1 ∧
      (Storage.update_collections (Storage.update_collections ctbl [A]) [B]).find?
          (fun r => decide (r.collection_media_key = B.collection_media_key))
        = some (toCollectionRow B)) ∧
    (countKey (fun r : MediaRow => r.media_key)
        (Storage.update (Storage.update mtbl [MA]) [MB]) MB.media_key = 1 ∧
      (Storage.update (Storage.update mtbl [MA]) [MB]).find?
          (fun r => decide (r.media_key = MB.media_key)) = some (toMediaRow MB)) := by
  unfold Storage.update_collections Storage.update upsertBatch
  simp only [List.map_cons, List.map_nil, List.foldl_cons, List.foldl_nil]
  refine ⟨⟨?_, ?_⟩, ⟨?_, ?_⟩⟩
  · have hinner := countKey_upsertRow_key (fun r : CollectionRow => r.collection_media_key)
      ctbl (toCollectionRow A) B.collection_media_key
      (by simp [toCollectionRow, hkeyC]) hcntC
    exact countKey_upsertRow_key (fun r : CollectionRow => r.collection_media_key)
      (upsertRow (fun r : CollectionRow => r.collection_media_key) ctbl (toCollectionRow A))
      (toCollectionRow B) B.collection_media_key (by simp [toCollectionRow])
      (Nat.le_of_eq hinner)
  · exact find?_upsertRow_key (fun r : CollectionRow => r.collection_media_key)
      (upsertRow (fun r : CollectionRow => r.collection_media_key) ctbl (toCollectionRow A))
      (toCollectionRow B) B.collection_media_key (by simp [toCollectionRow])
  · have hinner := countKey_upsertRow_key (fun r : MediaRow => r.media_key)
      mtbl (toMediaRow MA) MB.media_key (by simp [toMediaRow, hkeyM]) hcntM
    exact countKey_upsertRow_key (fun r : MediaRow => r.media_key)
      (upsertRow (fun r : MediaRow => r.media_key) mtbl (toMediaRow MA)) (toMediaRow MB)
      MB.media_key (by simp [toMediaRow]) (Nat.le_of_eq hinner)
  · exact find?_upsertRow_key (fun r : MediaRow => r.media_key)
      (upsertRow (fun r : MediaRow => r.media_key) mtbl (toMediaRow MA)) (toMediaRow MB)
      MB.media_key (by simp [toMediaRow])

def cWitB : CollectionItem := { cWit with total_items := Val.int 10, is_custom_ordered := false }

def mWitB : MediaItem := { mWit with size_bytes := Val.int 99, is_favorite := false }

/-- C2 witness: last-write-wins evaluated on concrete same-key records. -/
theorem C2_last_write_wins_witness :
    (Storage.update_collections (Storage.update_collections [] [cWit]) [cWitB]).find?
        (fun r => decide (r.collection_media_key = cWitB.collection_media_key))
      = some (toCollectionRow cWitB) ∧
      (Storage.update (Storage.update [] [mWit]) [mWitB]).find?
          (fun r => decide (r.media_key = mWitB.media_key)) = some (toMediaRow mWitB) :=
  ⟨(C2_last_write_wins [] cWit cWitB [] mWit mWitB rfl rfl (by decide) (by decide)).1.2,
   (C2_last_write_wins [] cWit cWitB [] mWit mWitB rfl rfl (by decide) (by decide)).2.2⟩

theorem filter_ne_of_all {ρ : Type} (tbl : List ρ) (p : ρ → Bool)
    (h : ∀ r ∈ tbl, p r = true) : tbl.filter p = tbl :=
  List.filter_eq_self.mpr h

def cM2 : CollectionItem :=
  { cWit with collection_media_key := Val.str "m2", collection_album_id := Val.str "a2" }

def rowM1 : CollectionRow := toCollectionRow cWit

def rowM2 : CollectionRow := toCollectionRow cM2

/-- C3: delete_collections removes exactly the rows whose
collection_media_key or collection_album_id is among the given keys; the
empty key list and absent keys leave the table untouched; and on the
two-row example table deleting by the first album id removes only the
first row. -/
theorem C3_delete_collections :
    (∀ (tbl : List CollectionRow) (ks : List String),
        (∀ r, r ∈ Storage.delete_collections tbl ks ↔
            r ∈ tbl ∧
              ¬∃ k ∈ ks, r.collection_media_key = Val.str k ∨
                r.collection_album_id = Val.str k) ∧
          Storage.delete_collections tbl [] = tbl ∧
          ((∀ k ∈ ks, ∀ r ∈ tbl,
              r.collection_media_key ≠ Val.str k ∧ r.collection_album_id ≠ Val.str k) →
            Storage.delete_collections tbl ks = tbl)) ∧
      Storage.delete_collections [rowM1, rowM2] ["a1"] = [rowM2] := by
  refine ⟨fun tbl ks => ⟨?_, ?_, ?_⟩, by decide⟩
  · intro r
    by_cases hks : ks.isEmpty
    · rw [List.isEmpty_iff] at hks
      subst hks
      simp [Storage.delete_collections]
    · simp only [Storage.delete_collections, if_neg hks, List.mem_filter,
        Bool.not_eq_eq_eq_not, Bool.not_true, Bool.or_eq_false_iff,
        List.any_eq_false, decide_eq_false_iff_not]
      constructor
      · rintro ⟨hmem, h1, h2⟩
        exact ⟨hmem, by
          rintro ⟨k, hk, hor⟩
          rcases hor with h | h
          · exact h1 k hk (decide_eq_true h)
          · exact h2 k hk (decide_eq_true h)⟩
      · rintro ⟨hmem, hno⟩
        refine ⟨hmem, fun k hk h => hno ⟨k, hk, Or.inl (of_decide_eq_true h)⟩,
          fun k hk h => hno ⟨k, hk, Or.inr (of_decide_eq_true h)⟩⟩
  · simp [Storage.delete_collections]
  · intro habs
    by_cases hks : ks.isEmpty
    · simp [Storage.delete_collections, hks]
    · simp only [Storage.delete_collections, if_neg hks]
      refine filter_ne_of_all tbl _ (fun r hr => ?_)
      simp only [Bool.not_eq_eq_eq_not, Bool.not_true, Bool.or_eq_false_iff,
        List.any_eq_false, decide_eq_false_iff_not, decide_eq_true_eq]
      exact ⟨fun k hk => (habs k hk r hr).1, fun k hk => (habs k hk r hr).2⟩

/-- C3 witness: deleting an absent key from the example table is a no-op,
through the general theorem. -/
theorem C3_delete_collections_witness :
    Storage.delete_collections [rowM1, rowM2] ["nonexistent"] = [rowM1, rowM2] :=
  (C3_delete_collections.1 [rowM1, rowM2] ["nonexistent"]).2.2 (by decide)

theorem sorted_head_max {l : List CollectionRow} (hs : List.Sorted ActDesc l) {c : CollectionRow}
    (hc : l.head? = some c) :
    ∀ r ∈ l, activityKey r.last_activity_time_ms ≤ activityKey c.last_activity_time_ms := by
  cases l with
  | nil => simp at hc
  | cons a tl =>
    simp only [List.head?_cons, Option.some.injEq] at hc
    subst hc
    intro r hr
    rcases List.mem_cons.mp hr with h | h
    · subst h
      exact le_refl _
    · exact (List.sorted_cons.mp hs).1 r h

def rowT1 : CollectionRow :=
  toCollectionRow
    { cWit with collection_media_key := Val.str "key_1", collection_album_id := Val.str "alb1",
                title := Val.str "Duplicate Album", total_items := Val.int 5,
                last_activity_time_ms := some (Val.int 1000000000) }

def rowT2 : CollectionRow :=
  toCollectionRow
    { cWit with collection_media_key := Val.str "key_2", collection_album_id := Val.str "alb2",
                title := Val.str "Duplicate Album", total_items := Val.int 10,
                last_activity_time_ms := some (Val.int 2000000000) }

/-- C4: get_collection_by_title is an exact, case-sensitive title match: it
returns none exactly when no stored collection has exactly that title, and
any returned collection comes from a stored row with that exact title whose
last_activity_time_ms is maximal among the rows with that title. -/
theorem C4_get_collection_by_title (tbl : List CollectionRow) (t : String) :
    (Storage.get_collection_by_title tbl t = none ↔
        ∀ r ∈ tbl, r.title ≠ Val.str t) ∧
      (∀ c, Storage.get_collection_by_title tbl t = some c →
        ∃ row ∈ tbl, c = collectionRowToItem row ∧ row.title = Val.str t ∧
          ∀ r ∈ tbl, r.title = Val.str t →
            activityKey r.last_activity_time_ms ≤ activityKey row.last_activity_time_ms) := by
  constructor
  · unfold Storage.get_collection_by_title
    rw [Option.map_eq_none']
    rw [List.head?_eq_none_iff]
    constructor
    · intro hnil r hr ht
      have hmem : r ∈ tbl.filter (fun r => decide (r.title = Val.str t)) :=
        List.mem_filter.mpr ⟨hr, decide_eq_true ht⟩
      rw [← (List.perm_insertionSort ActDesc
        (tbl.filter (fun r => decide (r.title = Val.str t)))).mem_iff] at hmem
      rw [hnil] at hmem
      exact absurd hmem (List.not_mem_nil r)
    · intro hno
      have : tbl.filter (fun r => decide (r.title = Val.str t)) = [] :=
        List.filter_eq_nil_iff.mpr (fun r hr => by
          simpa using hno r hr)
      rw [← List.length_eq_zero]
      rw [(List.perm_insertionSort ActDesc _).length_eq, this]
      rfl
  · intro c hc
    unfold Storage.get_collection_by_title at hc
    rw [Option.map_eq_some'] at hc
    obtain ⟨row, hhead, hrow⟩ := hc
    have hmemS : row ∈ List.insertionSort ActDesc
        (tbl.filter (fun r => decide (r.title = Val.str t))) := by
      cases hl : List.insertionSort ActDesc (tbl.filter (fun r => decide (r.title = Val.str t))) with
      | nil => rw [hl] at hhead; simp at hhead
      | cons a tl2 =>
        rw [hl] at hhead
        simp only [List.head?_cons, Option.some.injEq] at hhead
        rw [← hhead]
        exact List.mem_cons_self a tl2
    have hmemF : row ∈ tbl.filter (fun r => decide (r.title = Val.str t)) :=
      (List.perm_insertionSort ActDesc _).mem_iff.mp hmemS
    obtain ⟨hmem, htitle⟩ := List.mem_filter.mp hmemF
    refine ⟨row, hmem, hrow.symm, of_decide_eq_true htitle, ?_⟩
    intro r hr hrt
    have hrF : r ∈ tbl.filter (fun q => decide (q.title = Val.str t)) :=
      List.mem_filter.mpr ⟨hr, decide_eq_true hrt⟩
    have hrS : r ∈ List.insertionSort ActDesc
        (tbl.filter (fun q => decide (q.title = Val.str t))) :=
      (List.perm_insertionSort ActDesc _).mem_iff.mpr hrF
    exact sorted_head_max (List.sorted_insertionSort ActDesc _) hhead r hrS

/-- C4 witness: the tie-break evaluated on the two same-title rows (the more
recently active row key_2 is returned), plus the case-sensitivity miss. -/
theorem C4_get_collection_by_title_witness :
    (∃ row ∈ [rowT1, rowT2], collectionRowToItem rowT2 = collectionRowToItem row ∧
        row.title = Val.str "Duplicate Album" ∧
        ∀ r ∈ [rowT1, rowT2], r.title = Val.str "Duplicate Album" →
          activityKey r.last_activity_time_ms ≤ activityKey row.last_activity_time_ms) ∧
      Storage.get_collection_by_title [rowT1, rowT2] "duplicate album" = none :=
  ⟨(C4_get_collection_by_title [rowT1, rowT2] "Duplicate Album").2
      (collectionRowToItem rowT2) (by decide),
    (C4_get_collection_by_title [rowT1, rowT2] "duplicate album").1.mpr (by decide)⟩

/-- Descending last-activity order on returned items. -/
def ActDescI (a b : CollectionItem) : Prop :=
  activityKey b.last_activity_time_ms ≤ activityKey a.last_activity_time_ms

theorem sorted_map_items {rows : List CollectionRow} (hs : List.Sorted ActDesc rows) :
    List.Sorted ActDescI (rows.map collectionRowToItem) := by
  rw [List.Sorted, List.pairwise_map]
  exact hs.imp (fun h => h)

/-- C10 counterexample: with one stored collection, get_collections with
limit 0 returns all rows (the Python `if limit:` treats 0 like None), so the
claimed at-most-0 bound fails. -/
theorem C10_counterexample :
    (Storage.get_collections [rowM1] (some 0)).length = 1 ∧
      ¬((Storage.get_collections [rowM1] (some 0)).length ≤ 0) := by decide

/-- C10 (amended): for every positive limit n, get_collections returns at most
n collections; with the limit omitted (or 0, which the code treats as no
limit) it returns all of them; results are ordered by last_activity_time_ms
descending, and the is_custom_ordered boolean is reconstructed from its
stored 0/1 integer. -/
theorem C10_get_collections (tbl : List CollectionRow) (n : Int) (hn : 0 < n) :
    (Storage.get_collections tbl (some n)).length ≤ n.toNat ∧
      (Storage.get_collections tbl none).length = tbl.length ∧
      (Storage.get_collections tbl (some 0)).length = tbl.length ∧
      List.Sorted ActDescI (Storage.get_collections tbl none) ∧
      List.Sorted ActDescI (Storage.get_collections tbl (some n)) ∧
      (∀ item ∈ Storage.get_collections tbl (some n),
        ∃ row ∈ tbl, item = collectionRowToItem row) ∧
      (∀ row : CollectionRow,
        (collectionRowToItem row).is_custom_ordered = true ↔ row.is_custom_ordered ≠ 0) := by
  have hne : n ≠ 0 := hn.ne'
  have hnl : ¬n < 0 := not_lt.mpr hn.le
  unfold Storage.get_collections
  simp only [hne, hnl, if_neg, if_false, ite_false, reduceIte]
  refine ⟨?_, ?_, ?_, ?_, ?_, ?_, ?_⟩
  · simp only [List.length_map, List.length_take]
    exact min_le_left _ _
  · simp only [List.length_map]
    exact (List.perm_insertionSort ActDesc tbl).length_eq
  · simp only [List.length_map]
    exact (List.perm_insertionSort ActDesc tbl).length_eq
  · exact sorted_map_items (List.sorted_insertionSort ActDesc tbl)
  · exact sorted_map_items
      (List.Pairwise.sublist (List.take_sublist _ _) (List.sorted_insertionSort ActDesc tbl))
  · intro item hitem
    obtain ⟨row, hrow, hexact⟩ := List.mem_map.mp hitem
    have hrow2 : row ∈ List.insertionSort ActDesc tbl := List.mem_of_mem_take hrow
    exact ⟨row, (List.perm_insertionSort ActDesc tbl).mem_iff.mp hrow2, hexact.symm⟩
  · intro row
    simp [collectionRowToItem]

/-- C10 witness: the positive-limit bound evaluated on a concrete two-row
table. -/
theorem C10_get_collections_witness :
    (Storage.get_collections [rowT1, rowT2] (some 1)).length ≤ (1 : Int).toNat :=
  (C10_get_collections [rowT1, rowT2] 1 (by decide)).1

theorem parse_media_item_ok_extract (d : Val) (item : MediaItem)
    (h : parse_media_item d = .ok item) :
    dedup_key_of d = .ok item.dedup_key ∧ ∃ s, parse_origin d = .ok s ∧ item.origin = s := by
  unfold parse_media_item at h
  simp only [bind, Except.bind] at h
  repeat' split at h
  all_goals (try exact absurd h (by simp))
  all_goals (
    injection h with hh
    rw [← hh]
    refine ⟨by simp [applyMicro, applyVideo, applyPhoto, applyLoc, applyGeo]
              <;> (repeat' split) <;> (try rfl) <;> assumption, ?_⟩
    exact ⟨_, by assumption, by
      simp [applyMicro, applyVideo, applyPhoto, applyLoc, applyGeo]
        <;> (repeat' split) <;> rfl⟩)

/-- A media record whose origin code resolves to an integer outside the
origin_map domain fails the whole record decode (origin has no default). -/
theorem parse_media_item_error_of_bad_origin (d : Val) (c : Int)
    (hcode : origin_code d = .ok (Val.int c)) (h1 : c ≠ 1) (h3 : c ≠ 3) (h4 : c ≠ 4) :
    ∃ msg, parse_media_item d = .error msg := by
  cases hp : parse_media_item d with
  | error e => exact ⟨e, rfl⟩
  | ok item =>
    obtain ⟨-, s, hs, -⟩ := parse_media_item_ok_extract d item hp
    unfold parse_origin at hs
    rw [hcode] at hs
    simp only [bind, Except.bind] at hs
    split at hs
    · exfalso
      have hv := ‹Val.int c = Val.int 1›
      injection hv with hv2
      exact h1 hv2
    · exfalso
      have hv := ‹Val.int c = Val.int 3›
      injection hv with hv2
      exact h3 hv2
    · exfalso
      have hv := ‹Val.int c = Val.int 4›
      injection hv with hv2
      exact h4 hv2
    · simp at hs

/-- Characterization of parse_db_update on a standard envelope whose three
repeated fields are lists: the tokens are read with empty defaults, media
and collection items are decoded with per-item failures dropped, and
deletions are routed by type. -/
theorem parse_db_update_entries (entries : List (String × Val)) (ms cs ds : List Val)
    (h2 : lookup entries "2" = some (Val.list ms))
    (h3 : lookup entries "3" = some (Val.list cs))
    (h9 : lookup entries "9" = some (Val.list ds)) :
    parse_db_update (Val.dict [("1", Val.dict entries)]) = .ok
      { state_token := (lookup entries "6").getD (Val.str "")
        next_page_token := (lookup entries "1").getD (Val.str "")
        remote_media := ms.filterMap (fun d => (parse_media_item d).toOption)
        collections := cs.filterMap (fun d => (parse_collection_item d).toOption)
        media_keys_to_delete := (routeDeletions ds).1
        collection_keys_to_delete := (routeDeletions ds).2 } := by
  unfold parse_db_update itemsList
  simp only [Val.idx, lookup, if_pos, bind, Except.bind, ite_true, reduceIte,
    h2, h3, h9, Option.getD_some, Val.iterElems, pure, Except.pure]

/-- Dropping one failing media blob: an envelope whose media list contains a
blob that fails to decode parses to exactly the envelope-without-that-blob
result (tokens and all other items intact, no error escaping). -/
theorem drop_bad_media (entries : List (String × Val)) (ms1 ms2 cs ds : List Val)
    (bad : Val) (e : String)
    (h2 : lookup entries "2" = some (Val.list (ms1 ++ bad :: ms2)))
    (h3 : lookup entries "3" = some (Val.list cs))
    (h9 : lookup entries "9" = some (Val.list ds))
    (hbad : parse_media_item bad = .error e) :
    parse_db_update (Val.dict [("1", Val.dict entries)]) = .ok
      { state_token := (lookup entries "6").getD (Val.str "")
        next_page_token := (lookup entries "1").getD (Val.str "")
        remote_media := (ms1 ++ ms2).filterMap (fun d => (parse_media_item d).toOption)
        collections := cs.filterMap (fun d => (parse_collection_item d).toOption)
        media_keys_to_delete := (routeDeletions ds).1
        collection_keys_to_delete := (routeDeletions ds).2 } := by
  rw [parse_db_update_entries entries (ms1 ++ bad :: ms2) cs ds h2 h3 h9]
  simp [List.filterMap_append, List.filterMap_cons, hbad, Except.toOption]

/-- Dropping one failing collection blob, symmetric to drop_bad_media. -/
theorem drop_bad_collection (entries : List (String × Val)) (ms cs1 cs2 ds : List Val)
    (bad : Val) (e : String)
    (h2 : lookup entries "2" = some (Val.list ms))
    (h3 : lookup entries "3" = some (Val.list (cs1 ++ bad :: cs2)))
    (h9 : lookup entries "9" = some (Val.list ds))
    (hbad : parse_collection_item bad = .error e) :
    parse_db_update (Val.dict [("1", Val.dict entries)]) = .ok
      { state_token := (lookup entries "6").getD (Val.str "")
        next_page_token := (lookup entries "1").getD (Val.str "")
        remote_media := ms.filterMap (fun d => (parse_media_item d).toOption)
        collections := (cs1 ++ cs2).filterMap (fun d => (parse_collection_item d).toOption)
        media_keys_to_delete := (routeDeletions ds).1
        collection_keys_to_delete := (routeDeletions ds).2 } := by
  rw [parse_db_update_entries entries ms (cs1 ++ bad :: cs2) ds h2 h3 h9]
  simp [List.filterMap_append, List.filterMap_cons, hbad, Except.toOption]

/-- The d["2"] sub-record of a complete, well-typed media blob on which
_parse_media_item succeeds. -/
def exMediaD2 : List (String × Val) :=
  [("21", Val.dict [("1x", Val.str "dedup1")]),
   ("4", Val.str "file.jpg"),
   ("5", Val.list []),
   ("1", Val.dict [("1", Val.str "col1")]),
   ("10", Val.int 100),
   ("7", Val.int 1111),
   ("9", Val.int 2222),
   ("11", Val.int 1),
   ("35", Val.dict [("2", Val.int 50), ("3", Val.int 2)]),
   ("30", Val.dict [("1", Val.int 1)]),
   ("26", Val.int 3),
   ("16", Val.dict []),
   ("29", Val.dict [("1", Val.int 0)]),
   ("31", Val.dict [("1", Val.int 1)]),
   ("39", Val.dict [("1", Val.int 0)])]

/-- A complete, well-typed media blob on which _parse_media_item succeeds. -/
def exMediaBlobEntries : List (String × Val) :=
  [("1", Val.str "mk1"),
   ("2", Val.dict exMediaD2),
   ("5", Val.dict [("1", Val.int 1)]),
   ("17", Val.dict [])]

def exMediaBlob : Val := Val.dict exMediaBlobEntries

/-- The decode of exMediaBlob (note the caption: the caption scan takes the
value of the first key of d["2"] starting with "3", which here is the "35"
sub-record). -/
def exMediaItem : MediaItem :=
  { media_key := Val.str "mk1"
    file_name := Val.str "file.jpg"
    dedup_key := "dedup1"
    is_canonical := true
    type := Val.int 1
    caption := some (Val.dict [("2", Val.int 50), ("3", Val.int 2)])
    collection_id := Val.str "col1"
    size_bytes := Val.int 100
    quota_charged_bytes := Val.int 50
    origin := "self"
    content_version := Val.int 3
    utc_timestamp := Val.int 1111
    server_creation_timestamp := Val.int 2222
    timezone_offset := Val.int 0
    upload_status := Val.int 1
    trash_timestamp := Val.int 0
    is_archived := false
    is_favorite := true
    is_locked := false
    is_original_quality := true }

example : parse_media_item exMediaBlob = .ok exMediaItem := by decide

/-- A minimal collection blob (every optional chain defaulted). -/
def exColBlob : Val := Val.dict [("1", Val.str "cmk1")]

def exColItem : CollectionItem :=
  { collection_media_key := Val.str "cmk1"
    collection_album_id := Val.str ""
    title := Val.str "Untitled"
    total_items := Val.int 0
    type := Val.int 0
    sort_order := Val.int 0
    is_custom_ordered := false
    cover_item_media_key := none
    start := none
    «end» := none
    last_activity_time_ms := none }

example : parse_collection_item exColBlob = .ok exColItem := by decide

/-- The literal deletion envelopes of the spec (and a type-2 example). -/
def delEx1 : Val :=
  Val.dict [("1", Val.dict [("1", Val.int 1), ("2", Val.dict [("1", Val.str "media_key_123")])])]

def delEx2 : Val :=
  Val.dict [("1", Val.dict [("1", Val.int 2), ("3", Val.dict [("1", Val.str "collection_key_222")])])]

def delEx4 : Val :=
  Val.dict [("1", Val.dict [("1", Val.int 4), ("5", Val.dict [("2", Val.str "collection_key_456")])])]

def delEx6 : Val :=
  Val.dict [("1", Val.dict [("1", Val.int 6), ("7", Val.dict [("1", Val.str "collection_key_789")])])]

def delEx99 : Val := Val.dict [("1", Val.dict [("1", Val.int 99)])]

def delEnvelope : Val :=
  Val.dict [("1", Val.dict
    [("1", Val.str "pt"), ("6", Val.str "st"),
     ("9", Val.list [delEx1, delEx2, delEx4, delEx6, delEx99])])]

/-- C5: the deletion-entry decoder maps the literal inputs of the spec to the
stated (type, key) pairs, the unknown type 99 to the (0, none) sentinel, and
parse_db_update routes type 1 to the media deletion list and types 2, 4, 6
all to the collection deletion list while type 99 causes no mutation. -/
theorem C5_deletion_decode :
    parse_deletion_item delEx1 = (1, some (Val.str "media_key_123")) ∧
      parse_deletion_item delEx4 = (4, some (Val.str "collection_key_456")) ∧
      parse_deletion_item delEx6 = (6, some (Val.str "collection_key_789")) ∧
      parse_deletion_item delEx99 = (0, none) ∧
      parse_db_update delEnvelope = .ok
        { state_token := Val.str "st"
          next_page_token := Val.str "pt"
          remote_media := []
          collections := []
          media_keys_to_delete := [Val.str "media_key_123"]
          collection_keys_to_delete :=
            [Val.str "collection_key_222", Val.str "collection_key_456",
             Val.str "collection_key_789"] } := by
  decide

/-- C6: a failure decoding one media or collection record drops exactly that
record: the page still parses to ok with both cursor tokens, every other
successfully decoded media item, collection item and deletion key, for every
envelope whose repeated fields are lists. -/
theorem C6_per_item_isolation :
    (∀ (entries : List (String × Val)) (ms1 ms2 cs ds : List Val) (bad : Val) (e : String),
      lookup entries "2" = some (Val.list (ms1 ++ bad :: ms2)) →
      lookup entries "3" = some (Val.list cs) →
      lookup entries "9" = some (Val.list ds) →
      parse_media_item bad = .error e →
      parse_db_update (Val.dict [("1", Val.dict entries)]) = .ok
        { state_token := (lookup entries "6").getD (Val.str "")
          next_page_token := (lookup entries "1").getD (Val.str "")
          remote_media := (ms1 ++ ms2).filterMap (fun d => (parse_media_item d).toOption)
          collections := cs.filterMap (fun d => (parse_collection_item d).toOption)
          media_keys_to_delete := (routeDeletions ds).1
          collection_keys_to_delete := (routeDeletions ds).2 }) ∧
      (∀ (entries : List (String × Val)) (ms cs1 cs2 ds : List Val) (bad : Val) (e : String),
        lookup entries "2" = some (Val.list ms) →
        lookup entries "3" = some (Val.list (cs1 ++ bad :: cs2)) →
        lookup entries "9" = some (Val.list ds) →
        parse_collection_item bad = .error e →
        parse_db_update (Val.dict [("1", Val.dict entries)]) = .ok
          { state_token := (lookup entries "6").getD (Val.str "")
            next_page_token := (lookup entries "1").getD (Val.str "")
            remote_media := ms.filterMap (fun d => (parse_media_item d).toOption)
            collections := (cs1 ++ cs2).filterMap (fun d => (parse_collection_item d).toOption)
            media_keys_to_delete := (routeDeletions ds).1
            collection_keys_to_delete := (routeDeletions ds).2 }) :=
  ⟨fun entries ms1 ms2 cs ds bad e h2 h3 h9 hbad =>
      drop_bad_media entries ms1 ms2 cs ds bad e h2 h3 h9 hbad,
    fun entries ms cs1 cs2 ds bad e h2 h3 h9 hbad =>
      drop_bad_collection entries ms cs1 cs2 ds bad e h2 h3 h9 hbad⟩

def entriesC6 : List (String × Val) :=
  [("1", Val.str "pt"), ("6", Val.str "st"),
   ("2", Val.list [exMediaBlob, Val.str "garbage"]),
   ("3", Val.list [exColBlob, Val.int 5]),
   ("9", Val.list [delEx1])]

/-- C6 witness: on a concrete page carrying one good and one malformed blob
of each kind, the malformed ones are dropped and everything else (tokens,
good media item, good collection, deletion key) is returned. -/
theorem C6_per_item_isolation_witness :
    parse_db_update (Val.dict [("1", Val.dict entriesC6)]) = .ok
      { state_token := Val.str "st"
        next_page_token := Val.str "pt"
        remote_media := [exMediaItem]
        collections := [exColItem]
        media_keys_to_delete := [Val.str "media_key_123"]
        collection_keys_to_delete := [] } :=
  C6_per_item_isolation.1 entriesC6 [exMediaBlob] [] [exColBlob, Val.int 5] [delEx1]
    (Val.str "garbage") "TypeError" rfl rfl rfl rfl

/-- The exMediaBlob with its origin code replaced by the unknown code 99. -/
def badOriginBlob : Val :=
  Val.dict [
    ("1", Val.str "mk2"),
    ("2", Val.dict [
      ("21", Val.dict [("1x", Val.str "dedup2")]),
      ("4", Val.str "file2.jpg"),
      ("5", Val.list []),
      ("1", Val.dict [("1", Val.str "col1")]),
      ("10", Val.int 100),
      ("7", Val.int 1111),
      ("9", Val.int 2222),
      ("11", Val.int 1),
      ("35", Val.dict [("2", Val.int 50), ("3", Val.int 2)]),
      ("30", Val.dict [("1", Val.int 99)]),
      ("26", Val.int 3),
      ("16", Val.dict []),
      ("29", Val.dict [("1", Val.int 0)]),
      ("31", Val.dict [("1", Val.int 1)]),
      ("39", Val.dict [("1", Val.int 0)])]),
    ("5", Val.dict [("1", Val.int 1)]),
    ("17", Val.dict [])]

/-- C7: a media record whose origin code is an integer outside the recognized
set 1, 3, 4 fails to decode as a whole (no default origin), and the rest of
the page still decodes: the envelope parses to exactly the result of the
envelope without that record. -/
theorem C7_unknown_origin_hard_failure
    (entries : List (String × Val)) (ms1 ms2 cs ds : List Val) (d : Val) (c : Int)
    (hcode : origin_code d = .ok (Val.int c)) (hc1 : c ≠ 1) (hc3 : c ≠ 3) (hc4 : c ≠ 4)
    (h2 : lookup entries "2" = some (Val.list (ms1 ++ d :: ms2)))
    (h3 : lookup entries "3" = some (Val.list cs))
    (h9 : lookup entries "9" = some (Val.list ds)) :
    (∃ msg, parse_media_item d = .error msg) ∧
      parse_db_update (Val.dict [("1", Val.dict entries)]) = .ok
        { state_token := (lookup entries "6").getD (Val.str "")
          next_page_token := (lookup entries "1").getD (Val.str "")
          remote_media := (ms1 ++ ms2).filterMap (fun d => (parse_media_item d).toOption)
          collections := cs.filterMap (fun d => (parse_collection_item d).toOption)
          media_keys_to_delete := (routeDeletions ds).1
          collection_keys_to_delete := (routeDeletions ds).2 } := by
  obtain ⟨msg, hmsg⟩ := parse_media_item_error_of_bad_origin d c hcode hc1 hc3 hc4
  exact ⟨⟨msg, hmsg⟩, drop_bad_media entries ms1 ms2 cs ds d msg h2 h3 h9 hmsg⟩

def entriesC7 : List (String × Val) :=
  [("1", Val.str "pt"), ("6", Val.str "st"),
   ("2", Val.list [exMediaBlob, badOriginBlob]),
   ("3", Val.list []),
   ("9", Val.list [])]

/-- C7 witness: a concrete page with a good record and an origin-code-99
record decodes to just the good record, with tokens intact. -/
theorem C7_unknown_origin_hard_failure_witness :
    (∃ msg, parse_media_item badOriginBlob = .error msg) ∧
      parse_db_update (Val.dict [("1", Val.dict entriesC7)]) = .ok
        { state_token := Val.str "st"
          next_page_token := Val.str "pt"
          remote_media := [exMediaItem]
          collections := []
          media_keys_to_delete := []
          collection_keys_to_delete := [] } :=
  C7_unknown_origin_hard_failure entriesC7 [exMediaBlob] [] [] [] badOriginBlob 99
    rfl (by decide) (by decide) (by decide) rfl rfl rfl

theorem parse_db_update_congr (en1 en2 : List (String × Val))
    (ht1 : lookup en1 "1" = lookup en2 "1")
    (ht6 : lookup en1 "6" = lookup en2 "6")
    (hm2 : itemsList en1 "2" = itemsList en2 "2")
    (hm3 : itemsList en1 "3" = itemsList en2 "3")
    (hm9 : itemsList en1 "9" = itemsList en2 "9") :
    parse_db_update (Val.dict [("1", Val.dict en1)]) =
      parse_db_update (Val.dict [("1", Val.dict en2)]) := by
  unfold parse_db_update
  simp only [Val.idx, lookup, reduceIte, bind, Except.bind, ht1, ht6, hm2, hm3, hm9]

/-- C9: an envelope encoding one of its repeated fields (media list "2",
collection list "3", deletion list "9") as a bare object decodes to exactly
the same parse_db_update output as the equivalent envelope encoding it as a
one-element list. -/
theorem C9_singleton_normalization
    (entries : List (String × Val)) (k : String) (e : List (String × Val))
    (hk : k = "2" ∨ k = "3" ∨ k = "9")
    (hlook : lookup entries k = some (Val.dict e)) :
    parse_db_update (Val.dict [("1", Val.dict entries)]) =
      parse_db_update
        (Val.dict [("1", Val.dict (setKey entries k (Val.list [Val.dict e])))]) := by
  have hsame : itemsList entries k
      = itemsList (setKey entries k (Val.list [Val.dict e])) k := by
    rw [itemsList, itemsList, hlook, lookup_setKey_same]
    simp [Val.iterElems]
  have hne : ∀ k2, k2 ≠ k →
      itemsList entries k2 = itemsList (setKey entries k (Val.list [Val.dict e])) k2 := by
    intro k2 h
    rw [itemsList, itemsList, lookup_setKey_ne entries k k2 _ h]
  rcases hk with rfl | rfl | rfl
  · exact parse_db_update_congr _ _
      (lookup_setKey_ne entries _ "1" _ (by decide)).symm
      (lookup_setKey_ne entries _ "6" _ (by decide)).symm
      hsame (hne "3" (by decide)) (hne "9" (by decide))
  · exact parse_db_update_congr _ _
      (lookup_setKey_ne entries _ "1" _ (by decide)).symm
      (lookup_setKey_ne entries _ "6" _ (by decide)).symm
      (hne "2" (by decide)) hsame (hne "9" (by decide))
  · exact parse_db_update_congr _ _
      (lookup_setKey_ne entries _ "1" _ (by decide)).symm
      (lookup_setKey_ne entries _ "6" _ (by decide)).symm
      (hne "2" (by decide)) (hne "3" (by decide)) hsame

def entriesC9 : List (String × Val) :=
  [("1", Val.str "pt"), ("6", Val.str "st"),
   ("2", exMediaBlob),
   ("3", Val.list []),
   ("9", Val.list [])]

/-- C9 witness: a concrete envelope whose media field is a bare object
decodes identically to the one-element-list encoding. -/
theorem C9_singleton_normalization_witness :
    parse_db_update (Val.dict [("1", Val.dict entriesC9)]) =
      parse_db_update
        (Val.dict [("1", Val.dict
          (setKey entriesC9 "2" (Val.list [Val.dict exMediaBlobEntries])))]) :=
  C9_singleton_normalization entriesC9 "2" exMediaBlobEntries (Or.inl rfl) rfl

theorem lookup_isSome_of_mem (es : List (String × Val)) (k : String) (v : Val)
    (h : (k, v) ∈ es) : ∃ w, lookup es k = some w := by
  induction es with
  | nil => simp at h
  | cons hd tl ih =>
    obtain ⟨k1, v1⟩ := hd
    by_cases hk : k1 = k
    · exact ⟨v1, by simp [lookup, hk]⟩
    · rcases List.mem_cons.mp h with heq | hmem
      · exact absurd (congrArg Prod.fst heq).symm hk
      · obtain ⟨w, hw⟩ := ih hmem
        exact ⟨w, by simp [lookup, hk, hw]⟩

theorem lookup_of_mem_nodup (es : List (String × Val)) (k : String) (v : Val)
    (hnodup : (es.map Prod.fst).Nodup) (h : (k, v) ∈ es) : lookup es k = some v := by
  induction es with
  | nil => simp at h
  | cons hd tl ih =>
    obtain ⟨k1, v1⟩ := hd
    rcases List.mem_cons.mp h with heq | hmem
    · obtain ⟨hk, hv⟩ := Prod.mk.injEq .. ▸ heq.symm
      simp [lookup, hk, hv]
    · have hk1 : k1 ≠ k := by
        intro hk1
        subst hk1
        have : k1 ∈ tl.map Prod.fst := List.mem_map.mpr ⟨(k1, v), hmem, rfl⟩
        exact (List.nodup_cons.mp hnodup).1 this
      simp only [lookup, if_neg hk1]
      exact ih (List.nodup_cons.mp hnodup).2 hmem

theorem scanTagGo_keys (es : List (String × Val)) (tag : String)
    (sub : List (String × Val))
    (hsub : ∀ kv ∈ sub, ∃ w, lookup es kv.1 = some w) :
    scanTagGo (Val.dict es) tag (sub.map (fun kv => Val.str kv.1)) =
      .ok (match sub.find? (fun kv => tag.toList.isPrefixOf kv.1.toList) with
        | some kv => lookup es kv.1
        | none => none) := by
  induction sub with
  | nil => simp [scanTagGo, List.find?]
  | cons hd tl ih =>
    obtain ⟨k, v⟩ := hd
    by_cases hp : tag.toList.isPrefixOf k.toList
    · obtain ⟨w, hw⟩ := hsub (k, v) (List.mem_cons_self _ _)
      rw [List.find?_cons_of_pos _ (by simpa using hp)]
      simp only [List.map_cons, scanTagGo]
      rw [if_pos (by simpa using hp)]
      simp [Val.idx, hw]
    · have ihh := ih (fun kv hkv => hsub kv (List.mem_cons_of_mem _ hkv))
      rw [List.find?_cons_of_neg _ (by simpa using hp)]
      simp only [List.map_cons, scanTagGo]
      rw [if_neg (by simpa using hp)]
      exact ihh

theorem scanTag_dict (es : List (String × Val)) (tag : String) :
    scanTag (Val.dict es) tag =
      .ok (match es.find? (fun kv => tag.toList.isPrefixOf kv.1.toList) with
        | some kv => lookup es kv.1
        | none => none) := by
  unfold scanTag
  simp only [Val.iterElems, bind, Except.bind]
  exact scanTagGo_keys es tag es (fun kv hkv => lookup_isSome_of_mem es kv.1 kv.2 hkv)

/-- C8 counterexample input: a fully valid media blob whose property map
d["2"]["21"] has no sub-key starting with "1" but whose raw byte field
d["2"]["13"]["1"] is present. -/
def noDedupD2 : List (String × Val) :=
  [("21", Val.dict [("2", Val.str "x")]),
   ("13", Val.dict [("1", Val.bytes [1, 2, 3])]),
   ("4", Val.str "file.jpg"),
   ("5", Val.list []),
   ("1", Val.dict [("1", Val.str "col1")]),
   ("10", Val.int 100),
   ("7", Val.int 1111),
   ("9", Val.int 2222),
   ("11", Val.int 1),
   ("35", Val.dict [("2", Val.int 50), ("3", Val.int 2)]),
   ("30", Val.dict [("1", Val.int 1)]),
   ("26", Val.int 3),
   ("16", Val.dict []),
   ("29", Val.dict [("1", Val.int 0)]),
   ("31", Val.dict [("1", Val.int 1)]),
   ("39", Val.dict [("1", Val.int 0)])]

def noDedupBlob : Val :=
  Val.dict
    [("1", Val.str "mk3"),
     ("2", Val.dict noDedupD2),
     ("5", Val.dict [("1", Val.int 1)]),
     ("17", Val.dict [])]

/-- A blob whose first matching property sub-key holds bytes, exercising the
base64 fallback. -/
def fbD2 : List (String × Val) :=
  [("21", Val.dict [("1y", Val.bytes [9])]),
   ("13", Val.dict [("1", Val.bytes [1, 2, 3])]),
   ("4", Val.str "file.jpg"),
   ("5", Val.list []),
   ("1", Val.dict [("1", Val.str "col1")]),
   ("10", Val.int 100),
   ("7", Val.int 1111),
   ("9", Val.int 2222),
   ("11", Val.int 1),
   ("35", Val.dict [("2", Val.int 50), ("3", Val.int 2)]),
   ("30", Val.dict [("1", Val.int 1)]),
   ("26", Val.int 3),
   ("16", Val.dict []),
   ("29", Val.dict [("1", Val.int 0)]),
   ("31", Val.dict [("1", Val.int 1)]),
   ("39", Val.dict [("1", Val.int 0)])]

def fbBlob : Val :=
  Val.dict
    [("1", Val.str "mk4"),
     ("2", Val.dict fbD2),
     ("5", Val.dict [("1", Val.int 1)]),
     ("17", Val.dict [])]

/-- C8 counterexample: on noDedupBlob the record decodes with dedup_key ""
(the scan default is the empty string, which is a str, so the byte-field
fallback is skipped), not the URL-safe base64 transform of the raw byte
field, refuting the claimed fallback condition. -/
theorem C8_counterexample :
    (parse_media_item noDedupBlob).toOption.map (fun i => i.dedup_key) = some "" ∧
      urlsafe_base64 (b64encode [1, 2, 3]) = "AQID" ∧ ("" : String) ≠ "AQID" := by
  decide

/-- C8 (amended): the dedup key is the value of the first sub-key of
d["2"]["21"] starting with "1" when that value is a string; when no sub-key
matches, the dedup key is the empty string (even if the raw byte field is
present); the URL-safe base64 fallback on d["2"]["13"]["1"] applies exactly
when a matching sub-key exists whose value is not a string; and a
successfully decoded record carries exactly this resolution as its
dedup_key. -/
theorem C8_dedup_key_resolution (d d2 : Val) (es : List (String × Val))
    (hd2 : d.idx "2" = .ok d2) (ht21 : d2.idx "21" = .ok (Val.dict es))
    (hnodup : (es.map Prod.fst).Nodup) :
    (∀ k s, es.find? (fun kv => "1".toList.isPrefixOf kv.1.toList) = some (k, Val.str s) →
      dedup_key_of d = .ok s) ∧
      (es.find? (fun kv => "1".toList.isPrefixOf kv.1.toList) = none →
        dedup_key_of d = .ok "") ∧
      (∀ k v, es.find? (fun kv => "1".toList.isPrefixOf kv.1.toList) = some (k, v) →
        (∀ s, v ≠ Val.str s) →
        ∀ v13 b, d2.idx "13" = .ok v13 → v13.idx "1" = .ok (Val.bytes b) →
          dedup_key_of d = .ok (urlsafe_base64 (b64encode b))) ∧
      (∀ item, parse_media_item d = .ok item → dedup_key_of d = .ok item.dedup_key) := by
  refine ⟨?_, ?_, ?_, fun item hitem => (parse_media_item_ok_extract d item hitem).1⟩
  · intro k s hfind
    have hlook := lookup_of_mem_nodup es k (Val.str s) hnodup (List.mem_of_find?_eq_some hfind)
    unfold dedup_key_of
    simp only [hd2, ht21, bind, Except.bind, scanTag_dict, hfind, hlook]
    rfl
  · intro hfind
    unfold dedup_key_of
    simp only [hd2, ht21, bind, Except.bind, scanTag_dict, hfind]
    rfl
  · intro k v hfind hv v13 b h13 h131
    have hlook := lookup_of_mem_nodup es k v hnodup (List.mem_of_find?_eq_some hfind)
    unfold dedup_key_of
    simp only [hd2, ht21, bind, Except.bind, scanTag_dict, hfind, hlook]
    cases v with
    | str s => exact absurd rfl (hv s)
    | int n => simp [h13, h131, pure, Except.pure]
    | bytes b2 => simp [h13, h131, pure, Except.pure]
    | dict es2 => simp [h13, h131, pure, Except.pure]
    | list xs => simp [h13, h131, pure, Except.pure]

/-- C8 witness: the three resolution modes evaluated on concrete blobs
(string sub-key, no matching sub-key, bytes sub-key with fallback). -/
theorem C8_dedup_key_resolution_witness :
    dedup_key_of exMediaBlob = .ok "dedup1" ∧
      dedup_key_of noDedupBlob = .ok "" ∧
      dedup_key_of fbBlob = .ok "AQID" :=
  ⟨(C8_dedup_key_resolution exMediaBlob (Val.dict exMediaD2) [("1x", Val.str "dedup1")]
      rfl rfl (by decide)).1 "1x" "dedup1" (by decide),
    (C8_dedup_key_resolution noDedupBlob (Val.dict noDedupD2) [("2", Val.str "x")]
      rfl rfl (by decide)).2.1 (by decide),
    (C8_dedup_key_resolution fbBlob (Val.dict fbD2) [("1y", Val.bytes [9])]
      rfl rfl (by decide)).2.2.1 "1y" (Val.bytes [9]) (by decide)
      (fun s => by simp) (Val.dict [("1", Val.bytes [1, 2, 3])]) [1, 2, 3] rfl rfl⟩
